import Mathlib

/-!
Verification of the GTO scenario work-queue subsystem of
Smarter-Poker-Club-Arena.

Shallow embedding of the four Python source files:
  * `src/scripts/seed_gto_scenarios.py`      (namespace `SeedGto`)
  * `src/scripts/piosolver_batch.py`         (namespace `PioBatch`)
  * `src/scripts/windows_piosolver/piosolver_batch_runner.py` (namespace `Runner`)
  * `src/scripts/pio_tree_generator.py`      (namespace `TreeGen`)

External collaborators are modelled abstractly:
  * `hashlib.md5(...).hexdigest()` is an external digest; every definition that
    hashes takes the digest function as an explicit parameter `md5`, so every
    theorem about hashing holds for the real MD5 as a special case.
  * The Supabase persistent store is modelled as in-memory lists of rows.
    `table.upsert(payload, on_conflict=col)` in supabase-py defaults to
    `ignore_duplicates=False`, i.e. PostgREST `resolution=merge-duplicates`:
    on a conflict the supplied columns of the existing row are overwritten and
    no exception is raised.  Columns absent from the payload keep their values.
  * Python `float` values produced by the runner's percentage scraping are
    modelled as exact rationals, and the `float(...)` literal parser is an
    explicit parameter, since no claim depends on floating-point rounding.
-/

/-- Python `str(bool)`: `f"{True}" = "True"`, `f"{False}" = "False"`. -/
def pyStrBool (b : Bool) : String :=
  if b then "True" else "False"

/-- Python's `needle in haystack` substring test on strings. -/
def pyIn (needle haystack : String) : Bool :=
  (List.range (haystack.data.length + 1)).any fun i =>
    needle.data.isPrefixOf (haystack.data.drop i)

/-- Character-level splitting at every character satisfying `p`, keeping
empty pieces (the semantics of Python `str.split(sep)` for a one-character
separator when `p` tests for that separator).  Implemented structurally so
that concrete instances evaluate inside the kernel. -/
def splitCharsBy (p : Char → Bool) : List Char → List (List Char)
  | [] => [[]]
  | c :: cs =>
    if p c then [] :: splitCharsBy p cs
    else
      match splitCharsBy p cs with
      | [] => [[c]]
      | r :: rs => (c :: r) :: rs

/-- Python `line.split(sep)` for a single-character separator. -/
def pySplitChar (sep : Char) (s : String) : List String :=
  (splitCharsBy (fun c => c == sep) s.data).map String.mk

/-- Python `str.split()` with no argument: split on whitespace, dropping
empty tokens. -/
def pySplitWs (s : String) : List String :=
  ((splitCharsBy (fun c => c == ' ' || c == '\t' || c == '\r' || c == '\n')
    s.data).map String.mk).filter fun t => t ≠ ""

/-- Python `str.lower()` (ASCII case folding, as in all source inputs). -/
def pyToLower (s : String) : String :=
  String.mk (s.data.map Char.toLower)

/-- A string value that contains no `'|'` character, so that it cannot forge
the field separator used by the identity-hash pre-images. -/
def pipeFree (s : String) : Prop := '|' ∉ s.data

instance (s : String) : Decidable (pipeFree s) := by
  unfold pipeFree; infer_instance

/-- String append unfolds to list append on the underlying character data. -/
theorem string_data_append (a b : String) : (a ++ b).data = a.data ++ b.data :=
  rfl

/-- Splitting at a separator character is unambiguous when neither prefix
contains the separator. -/
theorem sep_append_inj (sep : Char) :
    ∀ (a b ra rb : List Char), sep ∉ a → sep ∉ b →
      a ++ sep :: ra = b ++ sep :: rb → a = b ∧ ra = rb := by
  intro a
  induction a with
  | nil =>
    intro b ra rb _ hb h
    cases b with
    | nil => simpa using h
    | cons c bs =>
      simp only [List.nil_append, List.cons_append, List.cons.injEq] at h
      exact absurd (h.1 ▸ List.mem_cons_self c bs) hb
  | cons c as ih =>
    intro b ra rb ha hb h
    cases b with
    | nil =>
      simp only [List.cons_append, List.nil_append, List.cons.injEq] at h
      exact absurd (h.1.symm ▸ List.mem_cons_self c as) ha
    | cons d bs =>
      simp only [List.cons_append, List.cons.injEq] at h
      have ha' : sep ∉ as := fun hm => ha (List.mem_cons_of_mem c hm)
      have hb' : sep ∉ bs := fun hm => hb (List.mem_cons_of_mem d hm)
      have := ih bs ra rb ha' hb' h.2
      exact ⟨by rw [h.1, this.1], this.2⟩

namespace SeedGto

/-- Per-round batch size, `BATCH_SIZE = 100` in `seed_gto_scenarios.py`. -/
def BATCH_SIZE : Nat := 100

/-- One entry of the `BUCKETS` table: format selector, eligible stack depths,
priority weight and target completion count. -/
structure BucketConfig where
  format : String
  stack_depths : List Nat
  priority : Nat
  target_count : Nat
deriving DecidableEq, Repr

/-- Cash-game section of the `BUCKETS` catalog (source order). -/
def BUCKETS_CASH : List (String × BucketConfig) := [
  ("6max_cash_200bb", ⟨"6max_cash", [200], 9, 1000⟩),
  ("6max_cash_100bb", ⟨"6max_cash", [100], 10, 2000⟩),
  ("6max_cash_80bb", ⟨"6max_cash", [80], 9, 1000⟩),
  ("6max_cash_60bb", ⟨"6max_cash", [60], 9, 1000⟩),
  ("6max_cash_40bb", ⟨"6max_cash", [40], 9, 1000⟩),
  ("6max_cash_20bb", ⟨"6max_cash", [20], 8, 800⟩),
  ("hu_cash_200bb", ⟨"hu_cash", [200], 8, 800⟩),
  ("hu_cash_100bb", ⟨"hu_cash", [100], 9, 1000⟩),
  ("hu_cash_80bb", ⟨"hu_cash", [80], 8, 800⟩),
  ("hu_cash_60bb", ⟨"hu_cash", [60], 8, 800⟩),
  ("hu_cash_40bb", ⟨"hu_cash", [40], 8, 800⟩),
  ("hu_cash_20bb", ⟨"hu_cash", [20], 7, 600⟩),
  ("9max_cash_200bb", ⟨"9max_cash", [200], 6, 600⟩),
  ("9max_cash_100bb", ⟨"9max_cash", [100], 7, 800⟩),
  ("9max_cash_80bb", ⟨"9max_cash", [80], 6, 600⟩),
  ("9max_cash_60bb", ⟨"9max_cash", [60], 6, 600⟩),
  ("9max_cash_40bb", ⟨"9max_cash", [40], 6, 600⟩),
  ("9max_cash_20bb", ⟨"9max_cash", [20], 5, 400⟩)]

/-- Spins section of the `BUCKETS` catalog (source order). -/
def BUCKETS_SPIN : List (String × BucketConfig) := [
  ("spin_3max_chipev_25bb", ⟨"spin_3max_chipev", [25], 8, 600⟩),
  ("spin_3max_chipev_20bb", ⟨"spin_3max_chipev", [20], 9, 800⟩),
  ("spin_3max_chipev_18bb", ⟨"spin_3max_chipev", [18], 9, 800⟩),
  ("spin_3max_chipev_15bb", ⟨"spin_3max_chipev", [15], 10, 1000⟩),
  ("spin_3max_chipev_12bb", ⟨"spin_3max_chipev", [12], 10, 1000⟩),
  ("spin_3max_chipev_10bb", ⟨"spin_3max_chipev", [10], 9, 800⟩),
  ("spin_3max_chipev_8bb", ⟨"spin_3max_chipev", [8], 8, 600⟩),
  ("spin_3max_icm_25bb", ⟨"spin_3max_icm", [25], 8, 600⟩),
  ("spin_3max_icm_20bb", ⟨"spin_3max_icm", [20], 9, 800⟩),
  ("spin_3max_icm_18bb", ⟨"spin_3max_icm", [18], 9, 800⟩),
  ("spin_3max_icm_15bb", ⟨"spin_3max_icm", [15], 10, 1000⟩),
  ("spin_3max_icm_12bb", ⟨"spin_3max_icm", [12], 10, 1000⟩),
  ("spin_3max_icm_10bb", ⟨"spin_3max_icm", [10], 9, 800⟩),
  ("spin_3max_icm_8bb", ⟨"spin_3max_icm", [8], 8, 600⟩),
  ("spin_hu_chipev_15bb", ⟨"spin_hu_chipev", [15], 9, 600⟩),
  ("spin_hu_chipev_10bb", ⟨"spin_hu_chipev", [10], 9, 600⟩),
  ("spin_hu_icm_15bb", ⟨"spin_hu_icm", [15], 9, 600⟩),
  ("spin_hu_icm_10bb", ⟨"spin_hu_icm", [10], 9, 600⟩)]

/-- MTT section of the `BUCKETS` catalog (source order). -/
def BUCKETS_MTT : List (String × BucketConfig) := [
  ("mtt_6max_chipev_50bb", ⟨"mtt_6max_chipev", [50], 7, 600⟩),
  ("mtt_6max_chipev_40bb", ⟨"mtt_6max_chipev", [40], 8, 800⟩),
  ("mtt_6max_chipev_30bb", ⟨"mtt_6max_chipev", [30], 9, 1000⟩),
  ("mtt_6max_chipev_25bb", ⟨"mtt_6max_chipev", [25], 9, 1000⟩),
  ("mtt_6max_chipev_20bb", ⟨"mtt_6max_chipev", [20], 10, 1200⟩),
  ("mtt_6max_chipev_15bb", ⟨"mtt_6max_chipev", [15], 10, 1200⟩),
  ("mtt_6max_chipev_12bb", ⟨"mtt_6max_chipev", [12], 9, 1000⟩),
  ("mtt_6max_chipev_10bb", ⟨"mtt_6max_chipev", [10], 9, 1000⟩),
  ("mtt_6max_chipev_8bb", ⟨"mtt_6max_chipev", [8], 8, 800⟩),
  ("mtt_6max_icm_30bb", ⟨"mtt_6max_icm", [30], 9, 800⟩),
  ("mtt_6max_icm_25bb", ⟨"mtt_6max_icm", [25], 10, 1000⟩),
  ("mtt_6max_icm_20bb", ⟨"mtt_6max_icm", [20], 10, 1200⟩),
  ("mtt_6max_icm_15bb", ⟨"mtt_6max_icm", [15], 10, 1200⟩),
  ("mtt_6max_icm_12bb", ⟨"mtt_6max_icm", [12], 9, 1000⟩),
  ("mtt_6max_icm_10bb", ⟨"mtt_6max_icm", [10], 9, 1000⟩),
  ("mtt_6max_icm_8bb", ⟨"mtt_6max_icm", [8], 8, 800⟩),
  ("mtt_9max_chipev_50bb", ⟨"mtt_9max_chipev", [50], 6, 500⟩),
  ("mtt_9max_chipev_40bb", ⟨"mtt_9max_chipev", [40], 7, 600⟩),
  ("mtt_9max_chipev_30bb", ⟨"mtt_9max_chipev", [30], 8, 800⟩),
  ("mtt_9max_chipev_25bb", ⟨"mtt_9max_chipev", [25], 8, 800⟩),
  ("mtt_9max_chipev_20bb", ⟨"mtt_9max_chipev", [20], 9, 1000⟩),
  ("mtt_9max_chipev_15bb", ⟨"mtt_9max_chipev", [15], 9, 1000⟩),
  ("mtt_9max_chipev_10bb", ⟨"mtt_9max_chipev", [10], 8, 800⟩),
  ("mtt_9max_icm_25bb", ⟨"mtt_9max_icm", [25], 9, 800⟩),
  ("mtt_9max_icm_20bb", ⟨"mtt_9max_icm", [20], 9, 1000⟩),
  ("mtt_9max_icm_15bb", ⟨"mtt_9max_icm", [15], 9, 1000⟩),
  ("mtt_9max_icm_10bb", ⟨"mtt_9max_icm", [10], 8, 800⟩),
  ("mtt_3max_chipev_25bb", ⟨"mtt_3max_chipev", [25], 8, 500⟩),
  ("mtt_3max_chipev_20bb", ⟨"mtt_3max_chipev", [20], 9, 600⟩),
  ("mtt_3max_chipev_15bb", ⟨"mtt_3max_chipev", [15], 9, 600⟩),
  ("mtt_3max_chipev_10bb", ⟨"mtt_3max_chipev", [10], 8, 500⟩),
  ("mtt_3max_icm_25bb", ⟨"mtt_3max_icm", [25], 9, 600⟩),
  ("mtt_3max_icm_20bb", ⟨"mtt_3max_icm", [20], 10, 800⟩),
  ("mtt_3max_icm_15bb", ⟨"mtt_3max_icm", [15], 10, 800⟩),
  ("mtt_3max_icm_10bb", ⟨"mtt_3max_icm", [10], 9, 600⟩),
  ("mtt_hu_chipev_25bb", ⟨"mtt_hu_chipev", [25], 8, 400⟩),
  ("mtt_hu_chipev_20bb", ⟨"mtt_hu_chipev", [20], 8, 400⟩),
  ("mtt_hu_chipev_15bb", ⟨"mtt_hu_chipev", [15], 8, 400⟩),
  ("mtt_hu_chipev_10bb", ⟨"mtt_hu_chipev", [10], 8, 400⟩),
  ("mtt_hu_icm_25bb", ⟨"mtt_hu_icm", [25], 9, 500⟩),
  ("mtt_hu_icm_20bb", ⟨"mtt_hu_icm", [20], 9, 500⟩),
  ("mtt_hu_icm_15bb", ⟨"mtt_hu_icm", [15], 9, 500⟩),
  ("mtt_hu_icm_10bb", ⟨"mtt_hu_icm", [10], 8, 400⟩)]

/-- SNG section of the `BUCKETS` catalog (source order). -/
def BUCKETS_SNG : List (String × BucketConfig) := [
  ("sng_9max_chipev_30bb", ⟨"sng_9max_chipev", [30], 6, 400⟩),
  ("sng_9max_chipev_20bb", ⟨"sng_9max_chipev", [20], 7, 500⟩),
  ("sng_9max_chipev_15bb", ⟨"sng_9max_chipev", [15], 7, 500⟩),
  ("sng_9max_icm_25bb", ⟨"sng_9max_icm", [25], 8, 500⟩),
  ("sng_9max_icm_20bb", ⟨"sng_9max_icm", [20], 8, 600⟩),
  ("sng_9max_icm_15bb", ⟨"sng_9max_icm", [15], 8, 600⟩),
  ("sng_9max_icm_10bb", ⟨"sng_9max_icm", [10], 7, 500⟩),
  ("sng_6max_icm_25bb", ⟨"sng_6max_icm", [25], 7, 400⟩),
  ("sng_6max_icm_20bb", ⟨"sng_6max_icm", [20], 8, 500⟩),
  ("sng_6max_icm_15bb", ⟨"sng_6max_icm", [15], 8, 500⟩),
  ("sng_6max_icm_10bb", ⟨"sng_6max_icm", [10], 7, 400⟩),
  ("sng_hu_25bb", ⟨"sng_hu", [25], 7, 300⟩),
  ("sng_hu_20bb", ⟨"sng_hu", [20], 7, 400⟩),
  ("sng_hu_15bb", ⟨"sng_hu", [15], 7, 400⟩),
  ("sng_hu_10bb", ⟨"sng_hu", [10], 6, 300⟩)]

/-- The full static `BUCKETS` catalog of `seed_gto_scenarios.py`, in source
order (Python dicts preserve insertion order); split into its four source
sections only to keep list-literal elaboration cheap. -/
def BUCKETS : List (String × BucketConfig) :=
  BUCKETS_CASH ++ BUCKETS_SPIN ++ BUCKETS_MTT ++ BUCKETS_SNG

/-- `BOARD_LIBRARY` from `seed_gto_scenarios.py`. -/
def BOARD_LIBRARY : List String := [
  "AsKd2c", "KsQc3d", "QhJd4c", "AhTc5d",
  "7s4d2c", "8c5d3s", "6h4c2d",
  "KsQdJc", "QcJdTh", "JsTc9d",
  "9s8d7c", "8h7c6d", "7s6d5c",
  "As9s4s", "Kh8h3h",
  "AsAd5c", "KsKc7d",
  "AsKd5s", "KhQc3h"]

/-- `POSITIONS_BY_FORMAT["hu"]`. -/
def POSITIONS_HU : List (String × String) := [("BTN", "BB")]

/-- `POSITIONS_BY_FORMAT["3max"]`. -/
def POSITIONS_3MAX : List (String × String) :=
  [("BTN", "BB"), ("BTN", "SB"), ("SB", "BB")]

/-- `POSITIONS_BY_FORMAT["6max"]`. -/
def POSITIONS_6MAX : List (String × String) :=
  [("BTN", "BB"), ("CO", "BB"), ("MP", "BB"), ("UTG", "BB"),
   ("BTN", "SB"), ("CO", "SB")]

/-- `POSITIONS_BY_FORMAT["9max"]`. -/
def POSITIONS_9MAX : List (String × String) :=
  [("BTN", "BB"), ("CO", "BB"), ("HJ", "BB"), ("MP", "BB"),
   ("UTG+2", "BB"), ("UTG+1", "BB"), ("UTG", "BB")]

/-- `POT_TYPES` from `seed_gto_scenarios.py`. -/
def POT_TYPES : List String := ["srp", "3bet"]

/-- `ACTIONS` from `seed_gto_scenarios.py`. -/
def ACTIONS : List String := ["check", "bet_33", "bet_50"]

/-- The pre-digest string built by `compute_hash` in `seed_gto_scenarios.py`:
the nine defining fields joined in fixed order with the `'|'` delimiter
(the f-string on line 219). -/
def seedRaw (format_code hero villain pot_type street board action : String)
    (stack : Nat) (is_icm : Bool) : String :=
  format_code ++ "|" ++ hero ++ "|" ++ villain ++ "|" ++ pot_type ++ "|" ++
    street ++ "|" ++ board ++ "|" ++ action ++ "|" ++ toString stack ++ "|" ++
    pyStrBool is_icm

/-- `compute_hash` of `seed_gto_scenarios.py`: MD5 hex digest of `seedRaw`.
The digest function is the external `hashlib.md5(...).hexdigest()`
collaborator, passed explicitly. -/
def compute_hash (md5 : String → String)
    (format_code hero villain pot_type street board action : String)
    (stack : Nat) (is_icm : Bool) : String :=
  md5 (seedRaw format_code hero villain pot_type street board action stack
    is_icm)

/-- Association lookup standing for Python's `BUCKETS[bucket_name]`. -/
def lookupBucket (bucket_name : String) : Option BucketConfig :=
  (BUCKETS.find? fun p => p.1 == bucket_name).map fun p => p.2

/-- The scenario dict appended by `generate_scenarios_for_bucket`
(lines 296-309 of `seed_gto_scenarios.py`).  `board` is `list(board)`, the
character list of the board string. -/
structure Scenario where
  scenario_hash : String
  format_code : String
  hero_position : String
  villain_position : String
  pot_type : String
  street : String
  board : List Char
  action_facing : String
  stack_depth_bb : Nat
  is_icm : Bool
  priority : Nat
  status : String
deriving DecidableEq, Repr

/-- The scenario built for one value of the enumerator index `idx` inside the
`while` loop of `generate_scenarios_for_bucket`. -/
def scenarioAt (md5 : String → String) (config : BucketConfig)
    (positions : List (String × String)) (idx : Nat) : Scenario :=
  let format_code := config.format
  let is_icm := pyIn "icm" format_code
  let stack := config.stack_depths.getD (idx % config.stack_depths.length) 0
  let hv := positions.getD (idx % positions.length) ("", "")
  let board := BOARD_LIBRARY.getD (idx % BOARD_LIBRARY.length) ""
  let pot_type := POT_TYPES.getD (idx % POT_TYPES.length) ""
  let action := ACTIONS.getD (idx % ACTIONS.length) ""
  { scenario_hash := compute_hash md5 format_code hv.1 hv.2 pot_type "flop"
      board action stack is_icm
    format_code := format_code
    hero_position := hv.1
    villain_position := hv.2
    pot_type := pot_type
    street := "flop"
    board := board.data
    action_facing := action
    stack_depth_bb := stack
    is_icm := is_icm
    priority := config.priority
    status := "pending" }

/-- `generate_scenarios_for_bucket(bucket_name, count)`: the enumerator index
`idx` always restarts at 0, and the loop appends exactly one scenario per
index, so the result is the map of `scenarioAt` over `0, ..., count-1`.
The domain lists in the catalog are all non-empty, so the `getD` defaults in
`scenarioAt` are never taken (Python would raise on an empty domain).
A `bucket_name` absent from `BUCKETS` would raise `KeyError` in Python and is
modelled as the empty list; the seeder only calls this with catalog names. -/
def generate_scenarios_for_bucket (md5 : String → String)
    (bucket_name : String) (count : Nat) : List Scenario :=
  match lookupBucket bucket_name with
  | none => []
  | some config =>
    let format_code := config.format
    let positions :=
      if pyIn "hu" format_code then POSITIONS_HU
      else if pyIn "3max" format_code then POSITIONS_3MAX
      else if pyIn "6max" format_code then POSITIONS_6MAX
      else POSITIONS_9MAX
    (List.range count).map fun idx => scenarioAt md5 config positions idx

/-- A row of the `gto_solve_queue` table: the Scenario fields plus the
store-side columns (`id`, timestamps, error message) that are not part of the
seeder's payload.  The worker reads a `position` column that the seeder never
writes, so it is `Option`-valued. -/
structure QueueRecord where
  id : Nat
  scenario_hash : String
  format_code : String
  hero_position : String
  position : Option String
  villain_position : String
  pot_type : String
  street : String
  board : List Char
  action_facing : String
  stack_depth_bb : Nat
  is_icm : Bool
  priority : Nat
  status : String
  created_at : Option String
  started_at : Option String
  completed_at : Option String
  error_message : Option String
deriving DecidableEq, Repr

/-- The queue row created when a scenario payload hits no existing
`scenario_hash`: payload columns from the dict, store-side columns null,
surrogate `id` assigned by the store. -/
def freshRecord (id : Nat) (s : Scenario) : QueueRecord :=
  { id := id
    scenario_hash := s.scenario_hash
    format_code := s.format_code
    hero_position := s.hero_position
    position := none
    villain_position := s.villain_position
    pot_type := s.pot_type
    street := s.street
    board := s.board
    action_facing := s.action_facing
    stack_depth_bb := s.stack_depth_bb
    is_icm := s.is_icm
    priority := s.priority
    status := s.status
    created_at := none
    started_at := none
    completed_at := none
    error_message := none }

/-- Overwriting an existing queue row with a conflicting seeder payload:
PostgREST `resolution=merge-duplicates` updates exactly the supplied columns
(including `status`, reset to the payload's `"pending"`); `id`, timestamps and
`error_message` are not in the payload and keep their old values. -/
def applyScenario (r : QueueRecord) (s : Scenario) : QueueRecord :=
  { r with
    scenario_hash := s.scenario_hash
    format_code := s.format_code
    hero_position := s.hero_position
    villain_position := s.villain_position
    pot_type := s.pot_type
    street := s.street
    board := s.board
    action_facing := s.action_facing
    stack_depth_bb := s.stack_depth_bb
    is_icm := s.is_icm
    priority := s.priority
    status := s.status }

/-- One `supabase.table("gto_solve_queue").upsert(scenario,
on_conflict="scenario_hash").execute()` call (line 358 of
`seed_gto_scenarios.py`): supabase-py defaults to
`ignore_duplicates=False`, so a hash conflict overwrites the existing row
instead of being skipped; only a missing hash appends a new row.  The call
does not raise on conflict, so the `except` arm of the source loop is dead
code for duplicates. -/
def upsertScenario (queue : List QueueRecord) (s : Scenario) :
    List QueueRecord :=
  if queue.any fun r => r.scenario_hash == s.scenario_hash then
    queue.map fun r =>
      if r.scenario_hash == s.scenario_hash then applyScenario r s else r
  else
    queue ++ [freshRecord queue.length s]

/-- The seeder's insertion loop over one generated batch (lines 356-365):
each scenario is upserted in order; `tracker.increment` and `total_seeded`
advance on every iteration because the upsert never raises. -/
def seedScenarios (queue : List QueueRecord) (scens : List Scenario) :
    List QueueRecord :=
  scens.foldl upsertScenario queue

end SeedGto

namespace SeedGto

/-- The priority/target view of one bucket used by the round-robin loop of
`seed_round_robin` (the tracker's `counts`/`targets` plus the catalog
priority). -/
structure SeedBucket where
  priority : Nat
  target : Nat
deriving DecidableEq, Repr

/-- `to_seed = min(BATCH_SIZE, remaining)` (line 349), for batch size `B`. -/
def toSeed (B target current : Nat) : Nat := min B (target - current)

/-- Tracker counts after one round of `seed_round_robin`: every bucket that
starts the round incomplete advances by `toSeed`; complete buckets are not in
`get_incomplete_buckets()` and keep their count.  The priority-descending
iteration order inside a round does not affect the resulting counts, since
each bucket's advance only reads its own count. -/
def roundAdvance (B : Nat) (bs : List SeedBucket) (cs : List Nat) : List Nat :=
  List.zipWith
    (fun b c => if c < b.target then c + toSeed B b.target c else c) bs cs

/-- Tracker counts at the round boundary after `r` rounds. -/
def countsAfter (B : Nat) (bs : List SeedBucket) (cs : List Nat) :
    Nat → List Nat
  | 0 => cs
  | r + 1 => roundAdvance B bs (countsAfter B bs cs r)

/-- Single-bucket count trajectory starting from count 0. -/
def bucketCount (B t : Nat) : Nat → Nat
  | 0 => 0
  | r + 1 =>
    let c := bucketCount B t r
    if c < t then c + toSeed B t c else c


/-- For a two-bucket catalog starting from zero counts, `countsAfter` is the
pair of independent single-bucket trajectories. -/
theorem countsAfter_pair (B : Nat) (b1 b2 : SeedBucket) : ∀ r : Nat,
    countsAfter B [b1, b2] [0, 0] r =
      [bucketCount B b1.target r, bucketCount B b2.target r] := by
  intro r
  induction r with
  | zero => simp [countsAfter, bucketCount]
  | succ r ih =>
    rw [countsAfter, ih]
    simp only [roundAdvance, List.zipWith]
    rw [bucketCount, bucketCount]

/-- Closed form of the single-bucket trajectory: after `r` rounds the tracker
count is `min (r * B) t`. -/
theorem bucketCount_closed (B t : Nat) : ∀ r : Nat,
    bucketCount B t r = min (r * B) t := by
  intro r
  induction r with
  | zero => simp [bucketCount]
  | succ r ih =>
    rw [bucketCount]
    simp only [ih, toSeed, Nat.succ_mul]
    rcases Nat.lt_or_ge (r * B) t with h | h
    · rw [Nat.min_eq_left (Nat.le_of_lt h), if_pos h]
      rcases Nat.le_total B (t - r * B) with hb | hb
      · rw [Nat.min_eq_left hb, Nat.min_eq_left (by omega)]
      · rw [Nat.min_eq_right hb, Nat.min_eq_right (by omega)]
        omega
    · rw [Nat.min_eq_right h, if_neg (by omega)]
      rw [Nat.min_eq_right (by omega)]

end SeedGto

namespace SeedGto

/-- Hard safety cap of `seed_round_robin`: `if total_seeded > 50000: break`. -/
def SAFETY_CAP : Nat := 50000

/-- State of the `seed_round_robin` loop at a round boundary: the tracker
counts (aligned with the bucket list) and the `total_seeded` counter. -/
structure SeedState where
  counts : List Nat
  total : Nat
deriving DecidableEq, Repr

/-- Whether `get_incomplete_buckets()` is non-empty: some bucket's tracker
count is below its target. -/
def anyIncomplete (bs : List SeedBucket) (cs : List Nat) : Bool :=
  (List.zip bs cs).any fun p => p.2 < p.1.target

/-- Number of upsert calls (equivalently, `total_seeded` increments) that one
round performs: `toSeed` for every incomplete bucket. -/
def roundTotal (B : Nat) (bs : List SeedBucket) (cs : List Nat) : Nat :=
  ((List.zip bs cs).map fun p =>
    if p.2 < p.1.target then toSeed B p.1.target p.2 else 0).sum

/-- Result of one pass through the `while True` body of `seed_round_robin`. -/
inductive SeedOutcome where
  | halted (final : SeedState)
  | running (st : SeedState)
deriving DecidableEq, Repr

/-- Whether the loop has stopped. -/
def SeedOutcome.isHalted : SeedOutcome → Bool
  | .halted _ => true
  | .running _ => false

/-- One pass through the `while True` body of `seed_round_robin`
(lines 332-373): break immediately when no bucket is incomplete; otherwise
run one round (advancing every incomplete bucket's tracker count and
`total_seeded` by `toSeed` each), then break when the safety cap is
exceeded. -/
def seedStep (B : Nat) (bs : List SeedBucket) (st : SeedState) : SeedOutcome :=
  if anyIncomplete bs st.counts = false then
    .halted st
  else if st.total + roundTotal B bs st.counts > SAFETY_CAP then
    .halted ⟨roundAdvance B bs st.counts, st.total + roundTotal B bs st.counts⟩
  else
    .running ⟨roundAdvance B bs st.counts, st.total + roundTotal B bs st.counts⟩

/-- `n` passes of the seeding loop from an initial state; once halted, the
outcome is frozen. -/
def seedRun (B : Nat) (bs : List SeedBucket) (st : SeedState) :
    Nat → SeedOutcome
  | 0 => .running st
  | n + 1 =>
    match seedRun B bs st n with
    | .halted f => .halted f
    | .running s => seedStep B bs s

/-- Inversion for a step that keeps running: a round was executed and the cap
was not exceeded. -/
theorem seedStep_running_inv (B : Nat) (bs : List SeedBucket)
    (t s : SeedState) (h : seedStep B bs t = .running s) :
    anyIncomplete bs t.counts = true ∧
      s.total = t.total + roundTotal B bs t.counts ∧
      s.total ≤ SAFETY_CAP := by
  unfold seedStep at h
  by_cases h1 : anyIncomplete bs t.counts = false
  · rw [if_pos h1] at h
    exact absurd h (by simp)
  · rw [if_neg h1] at h
    by_cases h2 : t.total + roundTotal B bs t.counts > SAFETY_CAP
    · rw [if_pos h2] at h
      exact absurd h (by simp)
    · rw [if_neg h2] at h
      cases h
      refine ⟨?_, rfl,
        show t.total + roundTotal B bs t.counts ≤ SAFETY_CAP by omega⟩
      revert h1
      cases anyIncomplete bs t.counts <;> simp

/-- Inversion for a halting step: either no bucket was incomplete and the
state is unchanged, or one more round ran and tripped the cap. -/
theorem seedStep_halted_inv (B : Nat) (bs : List SeedBucket)
    (t f : SeedState) (h : seedStep B bs t = .halted f) :
    f = t ∨ f.total = t.total + roundTotal B bs t.counts := by
  unfold seedStep at h
  by_cases h1 : anyIncomplete bs t.counts = false
  · rw [if_pos h1] at h
    cases h
    exact Or.inl rfl
  · rw [if_neg h1] at h
    by_cases h2 : t.total + roundTotal B bs t.counts > SAFETY_CAP
    · rw [if_pos h2] at h
      cases h
      exact Or.inr rfl
    · rw [if_neg h2] at h
      exact absurd h (by simp)

/-- A round with at least one incomplete bucket seeds at least one scenario:
each incomplete bucket contributes `min B (target - count) ≥ 1`. -/
theorem roundTotal_pos (B : Nat) (hB : 1 ≤ B) (bs : List SeedBucket)
    (cs : List Nat) (h : anyIncomplete bs cs = true) :
    1 ≤ roundTotal B bs cs := by
  have key : ∀ l : List (SeedBucket × Nat),
      (l.any fun p => p.2 < p.1.target) = true →
      1 ≤ ((l.map fun p =>
        if p.2 < p.1.target then toSeed B p.1.target p.2 else 0).sum) := by
    intro l hl
    induction l with
    | nil => simp at hl
    | cons p l ih =>
      simp only [List.any_cons, Bool.or_eq_true] at hl
      simp only [List.map_cons, List.sum_cons]
      rcases hl with hp | hl
      · have hp' : p.2 < p.1.target := of_decide_eq_true hp
        rw [if_pos hp']
        unfold toSeed
        omega
      · have := ih hl
        omega
  exact key (List.zip bs cs) h

/-- A round seeds at most `B` scenarios per catalog bucket. -/
theorem roundTotal_le (B : Nat) (bs : List SeedBucket) (cs : List Nat) :
    roundTotal B bs cs ≤ B * bs.length := by
  have key : ∀ l : List (SeedBucket × Nat),
      ((l.map fun p =>
        if p.2 < p.1.target then toSeed B p.1.target p.2 else 0).sum) ≤
        B * l.length := by
    intro l
    induction l with
    | nil => simp
    | cons p l ih =>
      simp only [List.map_cons, List.sum_cons, List.length_cons]
      have hts : toSeed B p.1.target p.2 ≤ B := Nat.min_le_left _ _
      have hif : (if p.2 < p.1.target then toSeed B p.1.target p.2 else 0)
          ≤ B := by
        split <;> omega
      have : B * (l.length + 1) = B + B * l.length := by ring
      omega
  have hlen : (List.zip bs cs).length ≤ bs.length := by
    rw [List.length_zip]
    omega
  calc roundTotal B bs cs ≤ B * (List.zip bs cs).length := key _
    _ ≤ B * bs.length := Nat.mul_le_mul_left B hlen

/-- While the loop is still running after `n` passes, at least `n` scenarios
have been seeded and the safety cap has not been exceeded. -/
theorem seedRun_running_bounds (B : Nat) (hB : 1 ≤ B) (bs : List SeedBucket)
    (cs0 : List Nat) : ∀ n s, seedRun B bs ⟨cs0, 0⟩ n = .running s →
      n ≤ s.total ∧ s.total ≤ SAFETY_CAP := by
  intro n
  induction n with
  | zero =>
    intro s h
    simp only [seedRun] at h
    cases h
    exact ⟨Nat.zero_le _, by simp [SAFETY_CAP]⟩
  | succ n ih =>
    intro s h
    rw [seedRun] at h
    cases hr : seedRun B bs ⟨cs0, 0⟩ n with
    | halted f =>
      rw [hr] at h
      exact absurd h (by simp)
    | running t =>
      rw [hr] at h
      have hstep : seedStep B bs t = .running s := h
      have ht := ih t hr
      have hinv := seedStep_running_inv B bs t s hstep
      have hpos := roundTotal_pos B hB bs t.counts hinv.1
      omega

/-- Any halted state reachable from a zero-total start respects the cap plus
at most one final round of overshoot. -/
theorem seedRun_halted_bound (B : Nat) (hB : 1 ≤ B) (bs : List SeedBucket)
    (cs0 : List Nat) : ∀ n f, seedRun B bs ⟨cs0, 0⟩ n = .halted f →
      f.total ≤ SAFETY_CAP + B * bs.length := by
  intro n
  induction n with
  | zero =>
    intro f h
    simp [seedRun] at h
  | succ n ih =>
    intro f h
    rw [seedRun] at h
    cases hr : seedRun B bs ⟨cs0, 0⟩ n with
    | halted g =>
      rw [hr] at h
      cases h
      exact ih f hr
    | running t =>
      rw [hr] at h
      have hstep : seedStep B bs t = .halted f := h
      have ht := seedRun_running_bounds B hB bs cs0 n t hr
      have hrt := roundTotal_le B bs t.counts
      rcases seedStep_halted_inv B bs t f hstep with he | he
      · rw [he]
        omega
      · omega

/-- The seeding loop halts within `SAFETY_CAP + 1` passes: every running pass
adds at least one to `total_seeded`, which is capped. -/
theorem seedRun_halts (B : Nat) (hB : 1 ≤ B) (bs : List SeedBucket)
    (cs0 : List Nat) :
    ∃ f, seedRun B bs ⟨cs0, 0⟩ (SAFETY_CAP + 1) = .halted f := by
  cases hr : seedRun B bs ⟨cs0, 0⟩ (SAFETY_CAP + 1) with
  | halted f => exact ⟨f, rfl⟩
  | running s =>
    have := seedRun_running_bounds B hB bs cs0 (SAFETY_CAP + 1) s hr
    omega

end SeedGto

namespace PioBatch

/-- The result dict of `run_solve` in `piosolver_batch.py` (and of
`run_piosolver` in the runner): `run_solve` catches every exception
internally and always returns a dict, never raises. -/
structure SolveResult where
  success : Bool
  raw_output : String
  error : String
  solve_time_ms : Nat
deriving DecidableEq, Repr

/-- The dict returned by `parse_gto_frequencies` (both workers):
action-frequency map, EV map, and the primary action. -/
structure ParseResult where
  frequencies : List (String × Rat)
  ev_by_action : List (String × Rat)
  gto_action : String
deriving DecidableEq, Repr

/-- Python `max(d, key=d.get)` over an ordered association list: the first
key attaining the maximal value (Python `max` keeps the first maximum). -/
def pyMaxByValue : List (String × Rat) → String
  | [] => ""
  | (k, v) :: rest =>
    (rest.foldl (fun best p => if p.2 > best.2 then p else best) (k, v)).1

/-- `parse_gto_frequencies` of `piosolver_batch.py` (lines 118-147): the
line loop matches `fold`/`call`/`raise` keywords but every extraction branch
is `pass`, so `frequencies` and `ev_by_action` always stay empty and the
primary action falls through to the `"unknown"` sentinel of
`max(frequencies, key=frequencies.get) if frequencies else "unknown"`. -/
def parse_gto_frequencies (raw_output : String) : ParseResult :=
  let frequencies : List (String × Rat) :=
    (pySplitChar '\n' raw_output).foldl (fun acc _line => acc) []
  let ev_by_action : List (String × Rat) := []
  { frequencies := frequencies
    ev_by_action := ev_by_action
    gto_action :=
      if frequencies.isEmpty then "unknown" else pyMaxByValue frequencies }

/-- `compute_scenario_hash` of `piosolver_batch.py` (lines 35-45): note that
the pre-digest string contains only position, pot type, street, the
comma-joined board, action facing and stack depth — neither the villain
position nor the ICM flag or payouts appear.  `board or []` treats a `None`
board as empty. -/
def scenarioHashRaw (position pot_type street : String)
    (board : Option (List String)) (action_facing : String)
    (stack_depth : Nat) : String :=
  position ++ "|" ++ pot_type ++ "|" ++ street ++ "|" ++
    String.intercalate "," (board.getD []) ++ "|" ++ action_facing ++ "|" ++
    toString stack_depth

/-- `compute_scenario_hash`: MD5 hex digest of `scenarioHashRaw`. -/
def compute_scenario_hash (md5 : String → String)
    (position pot_type street : String) (board : Option (List String))
    (action_facing : String) (stack_depth : Nat) : String :=
  md5 (scenarioHashRaw position pot_type street board action_facing
    stack_depth)

/-- A row of the `gto_solutions` table as upserted by `process_queue`
(lines 200-214). -/
structure Solution where
  scenario_hash : String
  position : Option String
  villain_position : String
  stack_depth_bb : Nat
  pot_type : String
  street : String
  board : List Char
  action_facing : String
  gto_action : String
  gto_frequencies : List (String × Rat)
  ev_by_action : List (String × Rat)
  solve_time_ms : Nat
  solver_output : String
deriving DecidableEq, Repr

/-- The two tables the worker touches. -/
structure DB where
  queue : List SeedGto.QueueRecord
  solutions : List Solution
deriving DecidableEq, Repr

/-- `supabase.table("gto_solutions").upsert({...})` keyed on
`scenario_hash`: replace the conflicting row, else append. -/
def upsertSolutionRow (sols : List Solution) (s : Solution) : List Solution :=
  if sols.any fun t => t.scenario_hash == s.scenario_hash then
    sols.map fun t => if t.scenario_hash == s.scenario_hash then s else t
  else
    sols ++ [s]

/-- The solution row built in the success branch of `process_queue`:
fields copied from the claimed queue row, parse results, and the raw output
truncated to 10000 characters (`result["raw_output"][:10000]`). -/
def mkSolution (r : SeedGto.QueueRecord) (res : SolveResult) : Solution :=
  let parsed := parse_gto_frequencies res.raw_output
  { scenario_hash := r.scenario_hash
    position := r.position
    villain_position := r.villain_position
    stack_depth_bb := r.stack_depth_bb
    pot_type := r.pot_type
    street := r.street
    board := r.board
    action_facing := r.action_facing
    gto_action := parsed.gto_action
    gto_frequencies := parsed.frequencies
    ev_by_action := parsed.ev_by_action
    solve_time_ms := res.solve_time_ms
    solver_output := res.raw_output.take 10000 }

/-- The store writes performed for a claimed record once `run_solve` has
returned (lines 195-238 of `piosolver_batch.py`, identically lines 292-334 of
the runner): on success, upsert a solution row and mark the queue row
`completed` with an end timestamp; on failure, mark it `failed`, store the
failure reason (`result["error"]`, in full, no truncation) and an end
timestamp, and write nothing to `gto_solutions`. -/
def processClaimed (db : DB) (rec : SeedGto.QueueRecord) (res : SolveResult)
    (now : String) : DB :=
  if res.success then
    { queue := db.queue.map fun r =>
        if r.id = rec.id then
          { r with status := "completed", completed_at := some now }
        else r
      solutions := upsertSolutionRow db.solutions (mkSolution rec res) }
  else
    { queue := db.queue.map fun r =>
        if r.id = rec.id then
          { r with
            status := "failed"
            error_message := some res.error
            completed_at := some now }
        else r
      solutions := db.solutions }

/-- Accumulator step of the claim query: keep the first row of maximal
priority.  `order("priority", desc=True).limit(1)` returns one row of
maximal priority among the filtered rows. -/
def pickTop (acc : Option SeedGto.QueueRecord) (r : SeedGto.QueueRecord) :
    Option SeedGto.QueueRecord :=
  match acc with
  | none => some r
  | some b => if r.priority > b.priority then some r else some b

/-- The claim query of `process_queue` (lines 163-168, identically in the
runner): select rows with `status == "pending"`, order by priority
descending, limit one. -/
def queryTopPending (queue : List SeedGto.QueueRecord) :
    Option SeedGto.QueueRecord :=
  (queue.filter fun r => r.status == "pending").foldl pickTop none

end PioBatch

namespace Runner

/-- The percentage extraction of the runner's `parse_gto_frequencies`
(`float(line.split('%')[0].split()[-1]) / 100`), with Python's `float`
literal parser passed in as `pf`.  A missing last token (`[-1]` on an empty
split) or an unparsable token raises and is swallowed by the surrounding
`try/except: pass`, modelled as `none`. -/
def parsePercent (pf : String → Option Rat) (line : String) : Option Rat :=
  let beforePct := (pySplitChar '%' line).headD ""
  match (pySplitWs beforePct).getLast? with
  | none => none
  | some tok =>
    match pf tok with
    | none => none
    | some x => some (x / 100)

/-- One pass of the runner's line loop (lines 190-209): an `if/elif` chain on
the lowercased line; a matching line overwrites the corresponding key of the
(ordered) `frequencies` dict, and a failed extraction leaves it unchanged. -/
def updateFreqs (pf : String → Option Rat) (freqs : List (String × Rat))
    (line : String) : List (String × Rat) :=
  let ll := pyToLower line
  if pyIn "fold" ll && pyIn "%" line then
    match parsePercent pf line with
    | some f => freqs.map fun p => if p.1 == "fold" then (p.1, f) else p
    | none => freqs
  else if pyIn "call" ll && pyIn "%" line then
    match parsePercent pf line with
    | some f => freqs.map fun p => if p.1 == "call" then (p.1, f) else p
    | none => freqs
  else if pyIn "raise" ll && pyIn "%" line then
    match parsePercent pf line with
    | some f => freqs.map fun p => if p.1 == "raise" then (p.1, f) else p
    | none => freqs
  else
    freqs

/-- `parse_gto_frequencies` of `piosolver_batch_runner.py` (lines 181-221):
`frequencies` starts as the three-key dict
`{"fold": 0.0, "call": 0.0, "raise": 0.0}`, the line loop updates it, and the
primary action is `max(frequencies, key=frequencies.get)` whenever the dict
is non-empty — which it always is, so the `"unknown"` sentinel branch is
unreachable. -/
def parse_gto_frequencies (pf : String → Option Rat) (raw_output : String) :
    PioBatch.ParseResult :=
  let freqs0 : List (String × Rat) := [("fold", 0), ("call", 0), ("raise", 0)]
  let frequencies :=
    (pySplitChar '\n' raw_output).foldl (updateFreqs pf) freqs0
  { frequencies := frequencies
    ev_by_action := []
    gto_action :=
      if frequencies.isEmpty then "unknown"
      else PioBatch.pyMaxByValue frequencies }

end Runner

namespace Worker

/-- Result of one store (or solve) operation as seen by a worker loop:
either a value or a raised exception carrying a message. -/
inductive OpResult (α : Type) where
  | ok (val : α)
  | err (msg : String)
deriving DecidableEq, Repr

/-- The behaviour of the collaborators during one iteration of a worker
loop: what the claim query, the status updates and the solution upsert do
(each either succeeds or raises, e.g. because the store is unavailable), and
the dict `run_solve`/`run_piosolver` returns (those functions catch all
their own exceptions and never raise). -/
structure StoreBehavior where
  claimQuery : OpResult (Option Nat)
  markSolving : OpResult Unit
  upsertSolution : OpResult Unit
  updateCompleted : OpResult Unit
  updateFailed : OpResult Unit
  solveSuccess : Bool
deriving DecidableEq, Repr

/-- What one pass of a worker loop body does next.  `caughtBackoff s` means a
loop-level `except` handler caught an exception and the loop resumes after
sleeping `s` seconds. -/
inductive LoopOutcome where
  | noWork
  | completed
  | solveFailedRecorded
  | caughtBackoff (sleepSecs : Nat)
deriving DecidableEq, Repr

/-- One iteration of `process_queue` in `piosolver_batch.py` (lines 161-249).
An `Except.error` result is an exception that escapes the `while True` body:
the worker process dies.  The claim query (line 163) and the mark-solving
update (line 182) run before the `try`, so their exceptions propagate; the
`try` covers solving and reporting, and its `except` handler marks the
record failed (itself a store write that can raise) and resumes the loop
with no backoff sleep. -/
def batchIteration (b : StoreBehavior) : Except String LoopOutcome :=
  match b.claimQuery with
  | .err e => .error e
  | .ok none => .ok .noWork
  | .ok (some _) =>
    match b.markSolving with
    | .err e => .error e
    | .ok _ =>
      let body : Except String LoopOutcome :=
        if b.solveSuccess then
          match b.upsertSolution with
          | .err e => .error e
          | .ok _ =>
            match b.updateCompleted with
            | .err e => .error e
            | .ok _ => .ok .completed
        else
          match b.updateFailed with
          | .err e => .error e
          | .ok _ => .ok .solveFailedRecorded
      match body with
      | .ok o => .ok o
      | .error _ =>
        match b.updateFailed with
        | .err e2 => .error e2
        | .ok _ => .ok (.caughtBackoff 0)

/-- One iteration of `process_queue` in `piosolver_batch_runner.py`
(lines 249-343): the whole body, claim query included, runs inside `try`;
`except Exception` logs, sleeps 10 seconds and resumes the loop.
(`except KeyboardInterrupt`, the operator's interruption, is outside the
scope of the store-error claims and not modelled.) -/
def runnerIteration (b : StoreBehavior) : Except String LoopOutcome :=
  let body : Except String LoopOutcome :=
    match b.claimQuery with
    | .err e => .error e
    | .ok none => .ok .noWork
    | .ok (some _) =>
      match b.markSolving with
      | .err e => .error e
      | .ok _ =>
        if b.solveSuccess then
          match b.upsertSolution with
          | .err e => .error e
          | .ok _ =>
            match b.updateCompleted with
            | .err e => .error e
            | .ok _ => .ok .completed
        else
          match b.updateFailed with
          | .err e => .error e
          | .ok _ => .ok .solveFailedRecorded
  match body with
  | .ok o => .ok o
  | .error _ => .ok (.caughtBackoff 10)

end Worker

namespace TreeGen

/-- The `TreeConfig` dataclass of `pio_tree_generator.py`. -/
structure TreeConfig where
  format_code : String
  hero_pos : String
  villain_pos : String
  stack_bb : Nat
  pot_type : String
  street : String
  board : String
  is_icm : Bool
  icm_payouts : Option (List Nat)
deriving DecidableEq, Repr

/-- The pre-digest string of `compute_hash` in `pio_tree_generator.py`
(line 277): format, hero position, pot type, street, board, stack and ICM
flag — the villain position, the action and the ICM payouts are absent. -/
def treeHashRaw (config : TreeConfig) : String :=
  config.format_code ++ "|" ++ config.hero_pos ++ "|" ++ config.pot_type ++
    "|" ++ config.street ++ "|" ++ config.board ++ "|" ++
    toString config.stack_bb ++ "|" ++ pyStrBool config.is_icm

/-- `compute_hash` of `pio_tree_generator.py`: MD5 hex digest of
`treeHashRaw`. -/
def compute_hash (md5 : String → String) (config : TreeConfig) : String :=
  md5 (treeHashRaw config)

end TreeGen

/-! Supporting definitions and lemmas shared by the claim theorems. -/

/-- An injective stand-in digest used to instantiate the external `md5`
parameter when a statement is evaluated on concrete inputs.  Statements about
equal digests of equal pre-images hold for every digest function, the real
MD5 included. -/
def demoDigest : String → String := fun s => s

/-- Equal character data means equal strings. -/
theorem string_data_inj {a b : String} (h : a.data = b.data) : a = b := by
  cases a
  cases b
  exact congrArg String.mk (by simpa using h)

/-- The character data of the `"|"` delimiter. -/
theorem pipe_data : ("|" : String).data = ['|'] := rfl

/-- `str(bool)` is injective. -/
theorem pyStrBool_inj : ∀ a b : Bool, pyStrBool a = pyStrBool b → a = b := by
  decide

namespace SeedGto

/-- Every stack depth occurring in the `BUCKETS` catalog. -/
def STACK_DOMAIN : List Nat :=
  [8, 10, 12, 15, 18, 20, 25, 30, 40, 50, 60, 80, 100, 200]

/-- Decimal representations of catalog stack depths contain no `'|'`. -/
theorem stack_repr_pipeFree : ∀ k ∈ STACK_DOMAIN, pipeFree (toString k) := by
  decide

/-- Decimal representation is injective on the catalog stack depths. -/
theorem stack_repr_inj : ∀ a ∈ STACK_DOMAIN, ∀ b ∈ STACK_DOMAIN,
    toString a = toString b → a = b := by
  decide

end SeedGto

/-- A pending queue row used to instantiate claims on concrete stores. -/
def demoPending (id pr : Nat) : SeedGto.QueueRecord :=
  { id := id
    scenario_hash := toString id
    format_code := "6max_cash"
    hero_position := "BTN"
    position := none
    villain_position := "BB"
    pot_type := "srp"
    street := "flop"
    board := "AsKd2c".data
    action_facing := "check"
    stack_depth_bb := 100
    is_icm := false
    priority := pr
    status := "pending"
    created_at := none
    started_at := none
    completed_at := none
    error_message := none }

/-- The queue row a worker has claimed in the concrete evaluations. -/
def demoQueueRec : SeedGto.QueueRecord := demoPending 1 5

/-- A `TreeConfig` with villain in the big blind. -/
def demoTreeConfigBB : TreeGen.TreeConfig :=
  ⟨"6max_cash", "BTN", "BB", 100, "srp", "flop", "AsKd2c", false, none⟩

/-- The same `TreeConfig` except for the villain position. -/
def demoTreeConfigSB : TreeGen.TreeConfig :=
  { demoTreeConfigBB with villain_pos := "SB" }

/-- A store whose claim query raises (the store is unavailable); everything
else would succeed. -/
def storeDown : Worker.StoreBehavior :=
  ⟨.err "store unavailable", .ok (), .err "store unavailable", .ok (),
    .ok (), true⟩

/-- A store where the claim succeeds but the solution upsert raises. -/
def upsertDown : Worker.StoreBehavior :=
  ⟨.ok (some 1), .ok (), .err "store unavailable", .ok (), .ok (), true⟩

/-- A `float(...)` parser that always raises, as for non-numeric tokens. -/
def noFloat : String → Option Rat := fun _ => none

/-- A bucket with target 100 for the fairness evaluations. -/
def demoBucketSmall : SeedGto.SeedBucket := ⟨5, 100⟩

/-- A bucket with target 1000 and the same priority. -/
def demoBucketLarge : SeedGto.SeedBucket := ⟨5, 1000⟩

/-- Raw solver output with no recognizable frequency data: no line passes any
of the keyword-and-percent tests of the line loops. -/
def noFreqData (raw : String) : Prop :=
  ∀ line ∈ pySplitChar '\n' raw,
    ¬(pyIn "fold" (pyToLower line) && pyIn "%" line) = true ∧
    ¬(pyIn "call" (pyToLower line) && pyIn "%" line) = true ∧
    ¬(pyIn "raise" (pyToLower line) && pyIn "%" line) = true

instance (raw : String) : Decidable (noFreqData raw) := by
  unfold noFreqData
  infer_instance

/-- A fold over lines that ignores every line returns its initial value: the
extraction branches of the batch parser are all `pass`. -/
theorem foldl_ignore_lines (l : List String) :
    l.foldl (fun acc _line => acc) ([] : List (String × Rat)) = [] := by
  induction l with
  | nil => rfl
  | cons x xs ih => simp only [List.foldl_cons]; exact ih

/-- A line passing none of the keyword tests leaves the runner's frequency
dict unchanged. -/
theorem updateFreqs_noop (pf : String → Option Rat)
    (freqs : List (String × Rat)) (line : String)
    (h1 : ¬(pyIn "fold" (pyToLower line) && pyIn "%" line) = true)
    (h2 : ¬(pyIn "call" (pyToLower line) && pyIn "%" line) = true)
    (h3 : ¬(pyIn "raise" (pyToLower line) && pyIn "%" line) = true) :
    Runner.updateFreqs pf freqs line = freqs := by
  unfold Runner.updateFreqs
  rw [if_neg h1, if_neg h2, if_neg h3]

/-- Folding the runner's line loop over unrecognizable lines keeps the
initial dict. -/
theorem foldl_updateFreqs_noop (pf : String → Option Rat)
    (freqs : List (String × Rat)) :
    ∀ lines : List String,
      (∀ line ∈ lines,
        ¬(pyIn "fold" (pyToLower line) && pyIn "%" line) = true ∧
        ¬(pyIn "call" (pyToLower line) && pyIn "%" line) = true ∧
        ¬(pyIn "raise" (pyToLower line) && pyIn "%" line) = true) →
      lines.foldl (Runner.updateFreqs pf) freqs = freqs := by
  intro lines
  induction lines with
  | nil => intro _; rfl
  | cons x xs ih =>
    intro h
    have hx := h x (List.mem_cons_self x xs)
    rw [List.foldl_cons, updateFreqs_noop pf freqs x hx.1 hx.2.1 hx.2.2]
    exact ih fun line hl => h line (List.mem_cons_of_mem x hl)

/-- The fold of the claim query keeps a maximal-priority element: starting
from `some b`, the result is `b` or a list element, at least as high-priority
as `b` and as every list element. -/
theorem foldl_pickTop_spec :
    ∀ (l : List SeedGto.QueueRecord) (b : SeedGto.QueueRecord),
      ∃ r, l.foldl PioBatch.pickTop (some b) = some r ∧ (r = b ∨ r ∈ l) ∧
        b.priority ≤ r.priority ∧ ∀ x ∈ l, x.priority ≤ r.priority := by
  intro l
  induction l with
  | nil =>
    intro b
    exact ⟨b, rfl, Or.inl rfl, Nat.le_refl _, by simp⟩
  | cons c cs ih =>
    intro b
    rw [List.foldl_cons]
    have hpt : PioBatch.pickTop (some b) c =
        if c.priority > b.priority then some c else some b := rfl
    rw [hpt]
    by_cases hcb : c.priority > b.priority
    · rw [if_pos hcb]
      obtain ⟨r, hr, hmem, hble, hall⟩ := ih c
      refine ⟨r, hr, ?_, by omega, ?_⟩
      · rcases hmem with h | h
        · exact Or.inr (h ▸ List.mem_cons_self c cs)
        · exact Or.inr (List.mem_cons_of_mem c h)
      · intro x hx
        rcases List.mem_cons.mp hx with h | h
        · rw [h]; exact hble
        · exact hall x h
    · rw [if_neg hcb]
      obtain ⟨r, hr, hmem, hble, hall⟩ := ih b
      refine ⟨r, hr, ?_, hble, ?_⟩
      · rcases hmem with h | h
        · exact Or.inl h
        · exact Or.inr (List.mem_cons_of_mem c h)
      · intro x hx
        rcases List.mem_cons.mp hx with h | h
        · rw [h]; omega
        · exact hall x h

/-! Concrete stores and scenario batches used to evaluate the seeding
claims. -/

/-- One generated scenario for the `sng_hu_25bb` bucket (enumerator restarts
at index 0). -/
def demoScens1 : List SeedGto.Scenario :=
  SeedGto.generate_scenarios_for_bucket demoDigest "sng_hu_25bb" 1

/-- The queue after seeding `demoScens1` into an empty store and the worker
completing every row. -/
def demoDb1c : List SeedGto.QueueRecord :=
  (SeedGto.seedScenarios [] demoScens1).map fun r =>
    { r with status := "completed" }

/-- Two generated scenarios for the `sng_hu_25bb` bucket. -/
def demoScens2 : List SeedGto.Scenario :=
  SeedGto.generate_scenarios_for_bucket demoDigest "sng_hu_25bb" 2

/-- The queue after seeding `demoScens2` into an empty store and the worker
completing every row. -/
def demoDb2c : List SeedGto.QueueRecord :=
  (SeedGto.seedScenarios [] demoScens2).map fun r =>
    { r with status := "completed" }

/-! The claim theorems. -/

/-- C1: the seeder's identity hash is a pure function of the nine defining
fields — format code, hero, villain, pot type, street, board, action facing,
stack depth, ICM flag — concatenated in one fixed order with the `'|'`
delimiter and digested; two field-wise equal scenarios always receive the
same digest, for any digest function (so in particular for MD5), with no
other input (time, randomness, environment) entering the computation. -/
theorem compute_hash_deterministic (md5 : String → String)
    (f1 h1 v1 pt1 st1 bd1 a1 : String) (k1 : Nat) (i1 : Bool)
    (f2 h2 v2 pt2 st2 bd2 a2 : String) (k2 : Nat) (i2 : Bool)
    (hf : f1 = f2) (hh : h1 = h2) (hv : v1 = v2) (hpt : pt1 = pt2)
    (hst : st1 = st2) (hbd : bd1 = bd2) (ha : a1 = a2) (hk : k1 = k2)
    (hi : i1 = i2) :
    SeedGto.compute_hash md5 f1 h1 v1 pt1 st1 bd1 a1 k1 i1 =
      SeedGto.compute_hash md5 f2 h2 v2 pt2 st2 bd2 a2 k2 i2 := by
  subst hf hh hv hpt hst hbd ha hk hi
  rfl

/-- Witness for C1 at a concrete scenario. -/
theorem compute_hash_deterministic_witness :
    SeedGto.compute_hash demoDigest "6max_cash" "BTN" "BB" "srp" "flop"
        "AsKd2c" "check" 100 false =
      SeedGto.compute_hash demoDigest "6max_cash" "BTN" "BB" "srp" "flop"
        "AsKd2c" "check" 100 false :=
  compute_hash_deterministic demoDigest "6max_cash" "BTN" "BB" "srp" "flop"
    "AsKd2c" "check" 100 false "6max_cash" "BTN" "BB" "srp" "flop" "AsKd2c"
    "check" 100 false rfl rfl rfl rfl rfl rfl rfl rfl rfl

/-- C2 (code evaluated at the failing input): re-seeding the same bucket with
the same starting enumerator index creates no new rows — but the
insert-or-ignore part of the claim fails: the seeder's
`upsert(..., on_conflict="scenario_hash")` overwrites the existing rows,
resetting even completed rows to status `"pending"`, instead of leaving them
unchanged as the source's own "skip duplicates" comments intend. -/
theorem reseed_overwrites_rows :
    (SeedGto.seedScenarios [] demoScens2).length = 2 ∧
      demoDb2c.all (fun r => r.status == "completed") = true ∧
      (SeedGto.seedScenarios demoDb2c demoScens2).length = demoDb2c.length ∧
      (SeedGto.seedScenarios demoDb2c demoScens2).all
        (fun r => r.status == "pending") = true := by
  decide

/-- C3 (code evaluated at the failing input): a completed record is indeed
never returned by the claim query — but a later seeder pass over the same
bucket upserts the same hash, resets the record to `"pending"` without
adding a row, after which the claim query returns it again: the terminal
status is not final. -/
theorem terminal_status_reset_by_seeder :
    PioBatch.queryTopPending demoDb1c = none ∧
      (PioBatch.queryTopPending
        (SeedGto.seedScenarios demoDb1c demoScens1)).map
          (fun r => r.status) = some "pending" ∧
      (SeedGto.seedScenarios demoDb1c demoScens1).length =
        demoDb1c.length := by
  decide

/-- C4: whenever the queue holds at least one pending record, the claim query
(`status == "pending"`, order by priority descending, limit 1) returns a
pending record of maximal priority among all pending records. -/
theorem queryTopPending_max_priority (queue : List SeedGto.QueueRecord)
    (hp : ∃ p ∈ queue, p.status = "pending") :
    ∃ r, PioBatch.queryTopPending queue = some r ∧ r.status = "pending" ∧
      r ∈ queue ∧
      ∀ x ∈ queue, x.status = "pending" → x.priority ≤ r.priority := by
  obtain ⟨p, hpm, hps⟩ := hp
  have hpf : p ∈ queue.filter fun r => r.status == "pending" :=
    List.mem_filter.mpr ⟨hpm, by simp [hps]⟩
  unfold PioBatch.queryTopPending
  cases hf : queue.filter fun r => r.status == "pending" with
  | nil =>
    rw [hf] at hpf
    simp at hpf
  | cons c cs =>
    rw [List.foldl_cons]
    have hpt : PioBatch.pickTop none c = some c := rfl
    rw [hpt]
    obtain ⟨r, hr, hmem, hcle, hall⟩ := foldl_pickTop_spec cs c
    have hrf : r ∈ queue.filter fun r => r.status == "pending" := by
      rw [hf]
      rcases hmem with h | h
      · rw [h]
        exact List.mem_cons_self c cs
      · exact List.mem_cons_of_mem c h
    have hrq := List.mem_filter.mp hrf
    refine ⟨r, hr, by simpa using hrq.2, hrq.1, ?_⟩
    intro x hx hxs
    have hxf : x ∈ queue.filter fun r => r.status == "pending" :=
      List.mem_filter.mpr ⟨hx, by simp [hxs]⟩
    rw [hf] at hxf
    rcases List.mem_cons.mp hxf with h | h
    · rw [h]
      exact hcle
    · exact hall x h

/-- Witness for C4: with a priority-1 and a priority-10 record both pending,
the claim query returns a pending record of maximal priority. -/
theorem queryTopPending_max_priority_witness :
    ∃ r, PioBatch.queryTopPending [demoPending 1 1, demoPending 2 10] =
        some r ∧ r.status = "pending" ∧
      r ∈ [demoPending 1 1, demoPending 2 10] ∧
      ∀ x ∈ [demoPending 1 1, demoPending 2 10], x.status = "pending" →
        x.priority ≤ r.priority :=
  queryTopPending_max_priority [demoPending 1 1, demoPending 2 10]
    ⟨demoPending 1 1, List.mem_cons_self _ _, rfl⟩

/-- C5 counterexample: the worker-side identity hashes do not separate all
defining fields.  The tree generator's `compute_hash` builds its pre-image
without the villain position, so two configurations differing only in
villain position share the pre-image and hence the digest under every digest
function, MD5 included. -/
theorem tree_hash_ignores_villain :
    demoTreeConfigBB.villain_pos ≠ demoTreeConfigSB.villain_pos ∧
      TreeGen.treeHashRaw demoTreeConfigBB =
        TreeGen.treeHashRaw demoTreeConfigSB ∧
      TreeGen.compute_hash demoDigest demoTreeConfigBB =
        TreeGen.compute_hash demoDigest demoTreeConfigSB := by
  decide

/-- C5 amended: the seeder's hash pre-image `seedRaw` does separate all nine
defining fields on realistic domains: whenever the string fields are free of
the `'|'` delimiter (true of every catalog value) and the stack depths come
from the catalog, equal pre-images force all nine fields equal — so
distinct field tuples collide only if the external digest itself collides.
The worker-side hashes (`compute_scenario_hash`, tree `compute_hash`) do not
have this property: they omit villain position and ICM data. -/
theorem seedRaw_inj_on_domains
    (f1 h1 v1 pt1 st1 bd1 a1 : String) (k1 : Nat) (i1 : Bool)
    (f2 h2 v2 pt2 st2 bd2 a2 : String) (k2 : Nat) (i2 : Bool)
    (hf1 : pipeFree f1) (hh1 : pipeFree h1) (hv1 : pipeFree v1)
    (hpt1 : pipeFree pt1) (hst1 : pipeFree st1) (hbd1 : pipeFree bd1)
    (ha1 : pipeFree a1)
    (hf2 : pipeFree f2) (hh2 : pipeFree h2) (hv2 : pipeFree v2)
    (hpt2 : pipeFree pt2) (hst2 : pipeFree st2) (hbd2 : pipeFree bd2)
    (ha2 : pipeFree a2)
    (hk1 : k1 ∈ SeedGto.STACK_DOMAIN) (hk2 : k2 ∈ SeedGto.STACK_DOMAIN)
    (hr : SeedGto.seedRaw f1 h1 v1 pt1 st1 bd1 a1 k1 i1 =
          SeedGto.seedRaw f2 h2 v2 pt2 st2 bd2 a2 k2 i2) :
    f1 = f2 ∧ h1 = h2 ∧ v1 = v2 ∧ pt1 = pt2 ∧ st1 = st2 ∧ bd1 = bd2 ∧
      a1 = a2 ∧ k1 = k2 ∧ i1 = i2 := by
  have hd := congrArg String.data hr
  simp only [SeedGto.seedRaw, string_data_append, pipe_data,
    List.append_assoc, List.singleton_append, List.cons_append,
    List.nil_append] at hd
  obtain ⟨e1, hd⟩ := sep_append_inj '|' _ _ _ _ hf1 hf2 hd
  obtain ⟨e2, hd⟩ := sep_append_inj '|' _ _ _ _ hh1 hh2 hd
  obtain ⟨e3, hd⟩ := sep_append_inj '|' _ _ _ _ hv1 hv2 hd
  obtain ⟨e4, hd⟩ := sep_append_inj '|' _ _ _ _ hpt1 hpt2 hd
  obtain ⟨e5, hd⟩ := sep_append_inj '|' _ _ _ _ hst1 hst2 hd
  obtain ⟨e6, hd⟩ := sep_append_inj '|' _ _ _ _ hbd1 hbd2 hd
  obtain ⟨e7, hd⟩ := sep_append_inj '|' _ _ _ _ ha1 ha2 hd
  obtain ⟨e8, hd⟩ := sep_append_inj '|' _ _ _ _
    (SeedGto.stack_repr_pipeFree k1 hk1) (SeedGto.stack_repr_pipeFree k2 hk2)
    hd
  exact ⟨string_data_inj e1, string_data_inj e2, string_data_inj e3,
    string_data_inj e4, string_data_inj e5, string_data_inj e6,
    string_data_inj e7,
    SeedGto.stack_repr_inj k1 hk1 k2 hk2 (string_data_inj e8),
    pyStrBool_inj i1 i2 (string_data_inj hd)⟩

/-- Witness for the amended C5 at a concrete catalog tuple. -/
theorem seedRaw_inj_on_domains_witness :
    "6max_cash" = "6max_cash" ∧ "BTN" = "BTN" ∧ "BB" = "BB" ∧
      "srp" = "srp" ∧ "flop" = "flop" ∧ "AsKd2c" = "AsKd2c" ∧
      "check" = "check" ∧ 100 = 100 ∧ false = false :=
  seedRaw_inj_on_domains "6max_cash" "BTN" "BB" "srp" "flop" "AsKd2c" "check"
    100 false "6max_cash" "BTN" "BB" "srp" "flop" "AsKd2c" "check" 100 false
    (by decide) (by decide) (by decide) (by decide) (by decide) (by decide)
    (by decide) (by decide) (by decide) (by decide) (by decide) (by decide)
    (by decide) (by decide) (by decide) (by decide) rfl

/-- C6 counterexample: in `piosolver_batch.py` a store error during the claim
query escapes the `while True` body — the worker process dies instead of
backing off — and an error caught by the loop's `except` handler resumes
with no backoff sleep at all. -/
theorem batch_claim_error_uncaught :
    Worker.batchIteration storeDown = Except.error "store unavailable" ∧
      Worker.batchIteration upsertDown =
        Except.ok (Worker.LoopOutcome.caughtBackoff 0) := by
  exact ⟨rfl, rfl⟩

/-- C6 amended: only the Windows runner's `process_queue` catches every error
of an iteration — claim query included — at loop level and resumes after a
10-second backoff, never letting an exception escape; in `piosolver_batch.py`
an error raised by the claim query propagates out of the loop and terminates
the worker process. -/
theorem loop_error_handling_amended :
    (∀ b : Worker.StoreBehavior, ∃ o, Worker.runnerIteration b =
      Except.ok o) ∧
    (∀ (b : Worker.StoreBehavior) (e : String),
      Worker.runnerIteration { b with claimQuery := Worker.OpResult.err e } =
        Except.ok (Worker.LoopOutcome.caughtBackoff 10)) ∧
    (∀ (b : Worker.StoreBehavior) (e : String),
      Worker.batchIteration { b with claimQuery := Worker.OpResult.err e } =
        Except.error e) := by
  refine ⟨?_, ?_, ?_⟩
  · intro b
    rcases b with ⟨cq, ms, us, uc, uf, ss⟩
    rcases cq with v | e
    · rcases v with _ | id
      · exact ⟨_, rfl⟩
      · rcases ms with u | e2
        · cases ss
          · rcases uf with u | e5
            · exact ⟨_, rfl⟩
            · exact ⟨_, rfl⟩
          · rcases us with u | e3
            · rcases uc with u | e4
              · exact ⟨_, rfl⟩
              · exact ⟨_, rfl⟩
            · exact ⟨_, rfl⟩
        · exact ⟨_, rfl⟩
    · exact ⟨_, rfl⟩
  · intro b e
    rfl
  · intro b e
    rfl

/-- C7 counterexample: the failure branch stores `result["error"]` in
`error_message` in full — there is no truncation to any bounded length, so no
bound `N` can dominate the stored message's length. -/
theorem error_message_not_truncated :
    ¬ ∃ N : Nat, ∀ reason : String,
      ∀ r ∈ (PioBatch.processClaimed ⟨[demoQueueRec], []⟩ demoQueueRec
          ⟨false, "", reason, 0⟩ "ts").queue,
        (r.error_message.getD "").length ≤ N := by
  rintro ⟨N, hN⟩
  have hmem : ({ demoQueueRec with
      status := "failed"
      error_message := some (String.mk (List.replicate (N + 1) 'a'))
      completed_at := some "ts" } : SeedGto.QueueRecord) ∈
      (PioBatch.processClaimed ⟨[demoQueueRec], []⟩ demoQueueRec
        ⟨false, "", String.mk (List.replicate (N + 1) 'a'), 0⟩ "ts").queue := by
    have hq : (PioBatch.processClaimed ⟨[demoQueueRec], []⟩ demoQueueRec
        ⟨false, "", String.mk (List.replicate (N + 1) 'a'), 0⟩ "ts").queue =
        [demoQueueRec].map fun r =>
          if r.id = demoQueueRec.id then
            { r with
              status := "failed"
              error_message := some (String.mk (List.replicate (N + 1) 'a'))
              completed_at := some "ts" }
          else r := rfl
    rw [hq]
    exact List.mem_map.mpr ⟨demoQueueRec, List.mem_singleton.mpr rfl,
      by rw [if_pos rfl]⟩
  have hlen := hN (String.mk (List.replicate (N + 1) 'a')) _ hmem
  simp only [Option.getD_some, String.length, List.length_replicate] at hlen
  omega

/-- C7 amended: for every solve failure, the worker marks the claimed record
`failed`, stores the failure reason verbatim and in full (no truncation) in
`error_message` together with an end timestamp, and writes no Solution row;
in particular a collaborator always failing with reason `"timeout"` leaves
the record failed with `error_message == "timeout"` and the solutions table
untouched. -/
theorem failure_recorded_verbatim (db : PioBatch.DB)
    (rec : SeedGto.QueueRecord) (reason now : String) (t : Nat) :
    (PioBatch.processClaimed db rec ⟨false, "", reason, t⟩ now).solutions =
        db.solutions ∧
      ∀ r ∈ db.queue, r.id = rec.id →
        ({ r with
          status := "failed"
          error_message := some reason
          completed_at := some now } : SeedGto.QueueRecord) ∈
          (PioBatch.processClaimed db rec ⟨false, "", reason, t⟩ now).queue := by
  constructor
  · rfl
  · intro r hr hid
    have hq : (PioBatch.processClaimed db rec ⟨false, "", reason, t⟩
        now).queue = db.queue.map fun r =>
          if r.id = rec.id then
            { r with
              status := "failed"
              error_message := some reason
              completed_at := some now }
          else r := rfl
    rw [hq]
    exact List.mem_map.mpr ⟨r, hr, by rw [if_pos hid]⟩

/-- Witness for the amended C7: the always-timeout collaborator on a
one-record store. -/
theorem failure_recorded_verbatim_witness :
    (PioBatch.processClaimed ⟨[demoQueueRec], []⟩ demoQueueRec
        ⟨false, "", "timeout", 0⟩ "ts").solutions =
        (PioBatch.DB.mk [demoQueueRec] []).solutions ∧
      ({ demoQueueRec with
        status := "failed"
        error_message := some "timeout"
        completed_at := some "ts" } : SeedGto.QueueRecord) ∈
        (PioBatch.processClaimed ⟨[demoQueueRec], []⟩ demoQueueRec
          ⟨false, "", "timeout", 0⟩ "ts").queue :=
  ⟨(failure_recorded_verbatim ⟨[demoQueueRec], []⟩ demoQueueRec "timeout"
      "ts" 0).1,
    (failure_recorded_verbatim ⟨[demoQueueRec], []⟩ demoQueueRec "timeout"
      "ts" 0).2 demoQueueRec (List.mem_singleton.mpr rfl) rfl⟩

/-- C8 counterexample: on raw output with no recognizable frequency data the
runner's parser does not return an empty frequency map with the `"unknown"`
sentinel: its dict is pre-populated with the three zero entries, so the map
is non-empty and the primary action is `"fold"` (the `"unknown"` branch is
unreachable). -/
theorem runner_parser_not_unknown :
    Runner.parse_gto_frequencies noFloat "" =
      { frequencies := [("fold", 0), ("call", 0), ("raise", 0)]
        ev_by_action := []
        gto_action := "fold" } ∧
      (Runner.parse_gto_frequencies noFloat "").frequencies ≠ [] ∧
      (Runner.parse_gto_frequencies noFloat "").gto_action ≠ "unknown" := by
  refine ⟨rfl, ?_, ?_⟩ <;> decide

/-- C8 amended: on raw output with no recognizable frequency data the batch
worker's parser returns the empty map and `"unknown"`, while the runner's
parser returns the all-zero three-key map with primary action `"fold"`; in
both workers such a parse still ends in the success path, which marks the
claimed record `completed`, not `failed`. -/
theorem unrecognized_output_completed (pf : String → Option Rat)
    (raw : String) (hraw : noFreqData raw) (db : PioBatch.DB)
    (rec : SeedGto.QueueRecord) (res : PioBatch.SolveResult) (now : String)
    (hs : res.success = true) :
    PioBatch.parse_gto_frequencies raw =
      { frequencies := [], ev_by_action := [], gto_action := "unknown" } ∧
    Runner.parse_gto_frequencies pf raw =
      { frequencies := [("fold", 0), ("call", 0), ("raise", 0)]
        ev_by_action := []
        gto_action := "fold" } ∧
    ∀ r ∈ db.queue, r.id = rec.id →
      ({ r with status := "completed", completed_at := some now } :
          SeedGto.QueueRecord) ∈
        (PioBatch.processClaimed db rec res now).queue := by
  refine ⟨?_, ?_, ?_⟩
  · simp only [PioBatch.parse_gto_frequencies, foldl_ignore_lines]
    rfl
  · simp only [Runner.parse_gto_frequencies]
    rw [foldl_updateFreqs_noop pf _ (pySplitChar '\n' raw) hraw]
    rfl
  · intro r hr hid
    unfold PioBatch.processClaimed
    rw [if_pos hs]
    exact List.mem_map.mpr ⟨r, hr, by rw [if_pos hid]⟩

/-- Witness for the amended C8 on concrete uninformative output. -/
theorem unrecognized_output_completed_witness :
    PioBatch.parse_gto_frequencies "solver done 42" =
      { frequencies := [], ev_by_action := [], gto_action := "unknown" } ∧
    Runner.parse_gto_frequencies noFloat "solver done 42" =
      { frequencies := [("fold", 0), ("call", 0), ("raise", 0)]
        ev_by_action := []
        gto_action := "fold" } ∧
    ∀ r ∈ [demoQueueRec], r.id = demoQueueRec.id →
      ({ r with status := "completed", completed_at := some "ts" } :
          SeedGto.QueueRecord) ∈
        (PioBatch.processClaimed ⟨[demoQueueRec], []⟩ demoQueueRec
          ⟨true, "solver done 42", "", 5⟩ "ts").queue :=
  unrecognized_output_completed noFloat "solver done 42" (by decide)
    ⟨[demoQueueRec], []⟩ demoQueueRec ⟨true, "solver done 42", "", 5⟩ "ts"
    rfl

/-- C9 counterexample: with equal priorities, targets 100 and 1000 and batch
size 10, the cumulative per-bucket seeding counts at the round-12 boundary
are 100 and 120, differing by 20 > 10; the same happens at the source batch
size 100 at the round-3 boundary (counts 100 and 300).  Once the small
bucket reaches its target it stops advancing, so the gap keeps growing. -/
theorem fairness_violated_after_completion :
    SeedGto.countsAfter 10 [demoBucketSmall, demoBucketLarge] [0, 0] 12 =
        [100, 120] ∧ ¬(120 - 100 ≤ 10) ∧
      SeedGto.countsAfter SeedGto.BATCH_SIZE
          [demoBucketSmall, demoBucketLarge] [0, 0] 3 = [100, 300] ∧
        ¬(300 - 100 ≤ SeedGto.BATCH_SIZE) := by
  refine ⟨by decide, by decide, by decide, by decide⟩

/-- C9 amended: at every round boundary reached while both equal-priority
buckets are still incomplete (both tracker counts below target at the start
of the round), the cumulative seeding counts differ by at most one batch
size, because each round advances every incomplete bucket by
`min(batchSize, target - currentCount)`. -/
theorem fairness_while_both_incomplete (B t1 t2 p1 p2 r : Nat)
    (h1 : r * B < t1) (h2 : r * B < t2) :
    ∃ c1 c2,
      SeedGto.countsAfter B [⟨p1, t1⟩, ⟨p2, t2⟩] [0, 0] (r + 1) =
        [c1, c2] ∧ c1 - c2 ≤ B ∧ c2 - c1 ≤ B := by
  have hc := SeedGto.countsAfter_pair B ⟨p1, t1⟩ ⟨p2, t2⟩ (r + 1)
  rw [SeedGto.bucketCount_closed, SeedGto.bucketCount_closed] at hc
  have e1 : (⟨p1, t1⟩ : SeedGto.SeedBucket).target = t1 := rfl
  have e2 : (⟨p2, t2⟩ : SeedGto.SeedBucket).target = t2 := rfl
  rw [e1, e2] at hc
  refine ⟨_, _, hc, ?_, ?_⟩ <;>
    · rw [Nat.succ_mul]
      omega

/-- Witness for the amended C9: targets 100 and 1000, batch size 10, round 6
boundary (both buckets still incomplete after 5 rounds). -/
theorem fairness_while_both_incomplete_witness :
    ∃ c1 c2,
      SeedGto.countsAfter 10 [⟨5, 100⟩, ⟨5, 1000⟩] [0, 0] (5 + 1) =
        [c1, c2] ∧ c1 - c2 ≤ 10 ∧ c2 - c1 ≤ 10 :=
  fairness_while_both_incomplete 10 100 1000 5 5 5 (by decide) (by decide)

/-- C10: for every bucket catalog and initial counts, the seeding loop halts
— it stops exactly when either no bucket is incomplete or the cumulative
seeded total would exceed the 50,000-insertion safety cap after the round —
and the final total is bounded by the cap plus at most one round of
overshoot (`B` per bucket). -/
theorem seeding_terminates (B : Nat) (hB : 1 ≤ B)
    (bs : List SeedGto.SeedBucket) (cs0 : List Nat) :
    (∃ n f, SeedGto.seedRun B bs ⟨cs0, 0⟩ n = SeedGto.SeedOutcome.halted f ∧
      f.total ≤ SeedGto.SAFETY_CAP + B * bs.length) ∧
    ∀ st : SeedGto.SeedState,
      (SeedGto.seedStep B bs st).isHalted = true ↔
        (SeedGto.anyIncomplete bs st.counts = false ∨
          SeedGto.SAFETY_CAP < st.total + SeedGto.roundTotal B bs st.counts)
    := by
  constructor
  · obtain ⟨f, hf⟩ := SeedGto.seedRun_halts B hB bs cs0
    exact ⟨SeedGto.SAFETY_CAP + 1, f, hf,
      SeedGto.seedRun_halted_bound B hB bs cs0 (SeedGto.SAFETY_CAP + 1) f hf⟩
  · intro st
    unfold SeedGto.seedStep
    by_cases hinc : SeedGto.anyIncomplete bs st.counts = false
    · rw [if_pos hinc]
      simp [SeedGto.SeedOutcome.isHalted, hinc]
    · rw [if_neg hinc]
      by_cases hcap :
          st.total + SeedGto.roundTotal B bs st.counts > SeedGto.SAFETY_CAP
      · rw [if_pos hcap]
        simp [SeedGto.SeedOutcome.isHalted, hinc, hcap]
      · rw [if_neg hcap]
        simp [SeedGto.SeedOutcome.isHalted, hinc]
        omega

/-- Witness for C10 on a one-bucket catalog with target 3 and the source
batch size 100. -/
theorem seeding_terminates_witness :
    (∃ n f, SeedGto.seedRun SeedGto.BATCH_SIZE [⟨7, 3⟩] ⟨[0], 0⟩ n =
        SeedGto.SeedOutcome.halted f ∧
      f.total ≤ SeedGto.SAFETY_CAP + SeedGto.BATCH_SIZE * [(⟨7, 3⟩ :
        SeedGto.SeedBucket)].length) ∧
    ∀ st : SeedGto.SeedState,
      (SeedGto.seedStep SeedGto.BATCH_SIZE [⟨7, 3⟩] st).isHalted = true ↔
        (SeedGto.anyIncomplete [⟨7, 3⟩] st.counts = false ∨
          SeedGto.SAFETY_CAP < st.total +
            SeedGto.roundTotal SeedGto.BATCH_SIZE [⟨7, 3⟩] st.counts) :=
  seeding_terminates SeedGto.BATCH_SIZE (by decide) [⟨7, 3⟩] [0]
